import Mathlib

/-
  Verification of the tacopie TCP socket/server layer.

  Shallow embedding of src/sources/network/tcp_socket.cpp and
  src/sources/network/tcp_server.cpp.  OS syscalls (socket, recv, send,
  connect, bind, listen, accept, close) are modelled by explicit oracle
  parameters giving their results; the member-variable state of a
  tcp_socket / tcp_server is threaded explicitly.  A C++ exception is
  modelled as an error value; because the throwing macro mutates nothing
  after the throw point, each operation returns the object state reached
  when the exception escapes, together with `Except`.
-/

namespace Tacopie

/-- Socket role, `tcp_socket::type` in the source. -/
inductive SocketType
  | UNKNOWN
  | CLIENT
  | SERVER
deriving DecidableEq

/-- Severity level passed to the logging/throwing macro at each site. -/
inductive LogLevel
  | debug
  | info
  | warn
  | error
deriving DecidableEq

/-- Modelled from the spec: the error/logging headers (error.hpp,
logger.hpp) are not under src/.  The throw macro receives a severity
level and a message at each throw site; the spec's error taxonomy keeps
distinct conditions distinct (in particular `PeerClosed` versus
`IoError`), so the thrown condition is modelled as the (level, message)
pair the source passes at the throw site. -/
structure tacopie_error where
  level : LogLevel
  msg : String
deriving DecidableEq

/-- State of a `tcp_socket`: descriptor, host, port, role. -/
structure tcp_socket where
  m_fd : Int
  m_host : String
  m_port : Nat
  m_type : SocketType
deriving DecidableEq

/-- The error thrown by `check_or_set_type` on a role mismatch. -/
def invalidOperationError : tacopie_error :=
  { level := .error, msg := "trying to perform invalid operation on socket" }

/-- The error thrown by `recv` when the OS recv call returns -1. -/
def recvIoError : tacopie_error :=
  { level := .error, msg := "recv() failure" }

/-- The error thrown by `recv` when the OS recv call returns 0
(orderly close by the remote host). -/
def peerClosedError : tacopie_error :=
  { level := .warn, msg := "nothing to read, socket has been closed by remote host" }

/-- `tcp_socket::create_socket_if_necessary`: if no descriptor is held,
obtain one from the OS (oracle `newFd`, -1 meaning failure) and reset
the role to UNKNOWN; the assignments precede the failure check. -/
def tcp_socket.create_socket_if_necessary (s : tcp_socket) (newFd : Int) :
    tcp_socket × Option tacopie_error :=
  if s.m_fd ≠ -1 then (s, none)
  else
    let s1 : tcp_socket := { s with m_fd := newFd, m_type := .UNKNOWN }
    if newFd = -1 then
      (s1, some { level := .error,
                  msg := "tcp_socket::create_socket_if_necessary: socket() failure" })
    else (s1, none)

/-- `tcp_socket::check_or_set_type`: fail when the recorded role is
known and differs from the requested one, otherwise record it. -/
def tcp_socket.check_or_set_type (s : tcp_socket) (t : SocketType) :
    tcp_socket × Option tacopie_error :=
  if s.m_type ≠ .UNKNOWN ∧ s.m_type ≠ t then (s, some invalidOperationError)
  else ({ s with m_type := t }, none)

/-- Result of the OS-level `recv` call: -1, or the bytes it wrote into
the front of the caller's buffer (returning 0 is `ok []`). -/
inductive OsRecvResult
  | err
  | ok (bytes : List Nat)
deriving DecidableEq

/-- `tcp_socket::recv`: allocate a zero-filled buffer of `size_to_read`
bytes, call the OS recv into it, throw on -1 (transport failure) and on
0 (peer closed), otherwise return the whole buffer (not truncated to
the number of bytes read). -/
def tcp_socket.recv (s : tcp_socket) (size_to_read : Nat) (newFd : Int)
    (osRecv : OsRecvResult) : tcp_socket × Except tacopie_error (List Nat) :=
  match s.create_socket_if_necessary newFd with
  | (s1, some e) => (s1, .error e)
  | (s1, none) =>
    match s1.check_or_set_type .CLIENT with
    | (s2, some e) => (s2, .error e)
    | (s2, none) =>
      match osRecv with
      | .err => (s2, .error recvIoError)
      | .ok bytes =>
        if bytes.length = 0 then (s2, .error peerClosedError)
        else (s2, .ok (bytes ++ List.replicate (size_to_read - bytes.length) 0))

/-- `tcp_socket::send`: the OS send result is an oracle (`none` = -1). -/
def tcp_socket.send (s : tcp_socket) (data : List Nat) (size_to_write : Nat)
    (newFd : Int) (osSend : Option Nat) : tcp_socket × Except tacopie_error Nat :=
  match s.create_socket_if_necessary newFd with
  | (s1, some e) => (s1, .error e)
  | (s1, none) =>
    match s1.check_or_set_type .CLIENT with
    | (s2, some e) => (s2, .error e)
    | (s2, none) =>
      match osSend with
      | none => (s2, .error { level := .error, msg := "send() failure" })
      | some wr => (s2, .ok wr)

/-- `tcp_socket::connect`: resolution and connection results are
oracles. -/
def tcp_socket.connect (s : tcp_socket) (host : String) (port : Nat)
    (newFd : Int) (resolveOk connectOk : Bool) :
    tcp_socket × Except tacopie_error Unit :=
  match s.create_socket_if_necessary newFd with
  | (s1, some e) => (s1, .error e)
  | (s1, none) =>
    match s1.check_or_set_type .CLIENT with
    | (s2, some e) => (s2, .error e)
    | (s2, none) =>
      if resolveOk = false then
        (s2, .error { level := .error, msg := "gethostbyname() failure" })
      else if connectOk = false then
        (s2, .error { level := .error, msg := "connect() failure" })
      else (s2, .ok ())

/-- `tcp_socket::bind`: resolution and bind results are oracles.  Note
the source never stores `host`/`port` into the member fields. -/
def tcp_socket.bind (s : tcp_socket) (host : String) (port : Nat)
    (newFd : Int) (resolveOk bindOk : Bool) :
    tcp_socket × Except tacopie_error Unit :=
  match s.create_socket_if_necessary newFd with
  | (s1, some e) => (s1, .error e)
  | (s1, none) =>
    match s1.check_or_set_type .SERVER with
    | (s2, some e) => (s2, .error e)
    | (s2, none) =>
      if resolveOk = false then
        (s2, .error { level := .error, msg := "gethostbyname() failure" })
      else if bindOk = false then
        (s2, .error { level := .error, msg := "bind() failure" })
      else (s2, .ok ())

/-- `tcp_socket::listen`: the OS listen result is an oracle. -/
def tcp_socket.listen (s : tcp_socket) (backlog : Nat) (newFd : Int)
    (listenOk : Bool) : tcp_socket × Except tacopie_error Unit :=
  match s.create_socket_if_necessary newFd with
  | (s1, some e) => (s1, .error e)
  | (s1, none) =>
    match s1.check_or_set_type .SERVER with
    | (s2, some e) => (s2, .error e)
    | (s2, none) =>
      if listenOk = false then
        (s2, .error { level := .debug, msg := "listen() failure" })
      else (s2, .ok ())

/-- `tcp_socket::accept`: the OS accept result (`clientFd`, -1 meaning
failure) and the peer sockaddr port field are oracles.  On success the
source builds the new socket as {client_fd, "", client_info.sin_port,
CLIENT}: the host is left empty (a TODO in the source) and the port
field receives the raw `sin_port` value. -/
def tcp_socket.accept (s : tcp_socket) (newFd clientFd : Int) (sinPort : Nat) :
    tcp_socket × Except tacopie_error tcp_socket :=
  match s.create_socket_if_necessary newFd with
  | (s1, some e) => (s1, .error e)
  | (s1, none) =>
    match s1.check_or_set_type .SERVER with
    | (s2, some e) => (s2, .error e)
    | (s2, none) =>
      if clientFd = -1 then
        (s2, .error { level := .error, msg := "accept() failure" })
      else
        (s2, .ok { m_fd := clientFd, m_host := "", m_port := sinPort, m_type := .CLIENT })

/-- `tcp_socket::close`: if a descriptor is held, close it at the OS
level; then unset the descriptor and reset the role.  The second
component lists the descriptors passed to the OS close call. -/
def tcp_socket.close (s : tcp_socket) : tcp_socket × List Int :=
  ({ s with m_fd := -1, m_type := .UNKNOWN },
   if s.m_fd ≠ -1 then [s.m_fd] else [])

/-- `tcp_socket::set_type`: unconditional assignment of the role. -/
def tcp_socket.set_type (s : tcp_socket) (t : SocketType) : tcp_socket :=
  { s with m_type := t }

/-! ### Helper lemmas -/

theorem create_noop (s : tcp_socket) (newFd : Int) (h : s.m_fd ≠ -1) :
    s.create_socket_if_necessary newFd = (s, none) := by
  simp [tcp_socket.create_socket_if_necessary, h]

theorem check_same (s : tcp_socket) (t : SocketType) (h : s.m_type = t) :
    s.check_or_set_type t = (s, none) := by
  obtain ⟨fd, host, port, ty⟩ := s
  cases h
  simp [tcp_socket.check_or_set_type]

theorem check_mismatch (s : tcp_socket) (t : SocketType)
    (h1 : s.m_type ≠ .UNKNOWN) (h2 : s.m_type ≠ t) :
    s.check_or_set_type t = (s, some invalidOperationError) := by
  simp [tcp_socket.check_or_set_type, h1, h2]

/-- A concrete socket already in the Client role. -/
def demoClientSocket : tcp_socket :=
  { m_fd := 4, m_host := "localhost", m_port := 8080, m_type := .CLIENT }

/-- A concrete socket already in the Server role. -/
def demoServerSocket : tcp_socket :=
  { m_fd := 3, m_host := "127.0.0.1", m_port := 3000, m_type := .SERVER }

/-! ### The tcp_server (src/sources/network/tcp_server.cpp)

The tcp_client class and the io_service are not under src/; only what
the server code observably does with them is modelled.  Reactor calls
and mutex operations appear as events in a trace so that properties
about tracking, descriptor closing, reporting and lock discipline can
be stated.  Per-event bookkeeping: the server's log calls are omitted
from the trace except the one warning the accept-failure claim needs. -/

/-- Modelled from the spec: tcp_client is not under src/.  Per §4.3 a
Client connection wraps one accepted Socket and tracks one
disconnection notifier; the model records the wrapped socket state and
whether `set_on_disconnection_handler` has wired the notifier to the
server's removal path. -/
structure ModelClient where
  socket : tcp_socket
  has_disconnection_handler : Bool
deriving DecidableEq

/-- Observable actions of the server code: reactor calls, mutex
operations on `m_clients_mtx`, mutations of `m_clients`, OS-level
closes of descriptors, accept attempts, and the one log report kept. -/
inductive ServerEvent
  | track
  | untrack
  | set_rd_callback
  | lock_acquire
  | lock_release
  | clients_push
  | clients_erase
  | clients_clear
  | os_close (fd : Int)
  | accept_attempt
  | log (lvl : LogLevel) (msg : String)
deriving DecidableEq

/-- Modelled from the spec: §4.3 says `disconnect()` untracks the
descriptor, closes the Socket and transitions to Disconnected; the
tcp_client source is not under src/.  The model closes the wrapped
socket and reports the OS closes. -/
def ModelClient.disconnect (c : ModelClient) : ModelClient × List ServerEvent :=
  let (s1, closed) := c.socket.close
  ({ c with socket := s1 }, closed.map ServerEvent.os_close)

/-- State of a `tcp_server`.  `m_has_callback` models whether
`m_on_new_connection_callback` holds a callable (versus nullptr). -/
structure tcp_server where
  m_is_running : Bool
  m_socket : tcp_socket
  m_clients : List ModelClient
  m_has_callback : Bool
deriving DecidableEq

/-- The error thrown by `tcp_server::start` on a running server. -/
def alreadyRunningError : tacopie_error :=
  { level := .warn, msg := "tcp_server is already running" }

/-- The warning logged by `tcp_server::on_read_available` in its catch
handler before it stops the server. -/
def acceptFailureReport : ServerEvent :=
  .log .warn "accept operation failure"

/-- `__TACOPIE_CONNECTION_QUEUE_SIZE`: modelled from the spec — the
listen backlog is a fixed configuration value (the defaults header is
not under src/). -/
def connectionQueueSize : Nat := 1024

/-- `tcp_server::is_running`. -/
def tcp_server.is_running (srv : tcp_server) : Bool := srv.m_is_running

/-- `tcp_server::stop`: return at once when not running; otherwise
clear the running flag, untrack and close the listening socket, then
under `m_clients_mtx` disconnect every client and clear the collection.
Each client's notifier calls `on_client_disconnected`, which returns
immediately because the running flag is already false (the comment in
the source spells this out), so those calls add no events. -/
def tcp_server.stop (srv : tcp_server) : tcp_server × List ServerEvent :=
  if srv.m_is_running = false then (srv, [])
  else
    let (sock1, closedFds) := srv.m_socket.close
    let clientEvents := (srv.m_clients.map fun c => (c.disconnect).2).flatten
    ({ srv with m_is_running := false, m_socket := sock1, m_clients := [] },
     [ServerEvent.untrack] ++ closedFds.map ServerEvent.os_close
       ++ [ServerEvent.lock_acquire] ++ clientEvents
       ++ [ServerEvent.clients_clear, ServerEvent.lock_release])

/-- `tcp_server::start`: throw when already running; bind and listen
the socket (exceptions propagate, leaving the partially-mutated socket
but registering nothing); then track the descriptor, set the read
callback, store the admission callback and set the running flag. -/
def tcp_server.start (srv : tcp_server) (host : String) (port : Nat)
    (newFd : Int) (resolveOk bindOk listenOk : Bool) (cbPresent : Bool) :
    tcp_server × List ServerEvent × Option tacopie_error :=
  if srv.m_is_running = true then (srv, [], some alreadyRunningError)
  else
    match srv.m_socket.bind host port newFd resolveOk bindOk with
    | (sock1, .error e) => ({ srv with m_socket := sock1 }, [], some e)
    | (sock1, .ok _) =>
      match sock1.listen connectionQueueSize newFd listenOk with
      | (sock2, .error e) => ({ srv with m_socket := sock2 }, [], some e)
      | (sock2, .ok _) =>
        ({ srv with m_socket := sock2, m_has_callback := cbPresent,
                    m_is_running := true },
         [ServerEvent.track, ServerEvent.set_rd_callback], none)

/-- `tcp_server::on_read_available`: try one accept.  On any thrown
tacopie_error, log the warning and stop the server.  On success, wrap
the accepted socket as a client; when no admission callback is set or
the callback returns true, wire the disconnection handler and push the
client onto `m_clients` (note: without taking `m_clients_mtx`);
otherwise the dismissed client's last reference dies at end of scope,
which disconnects and closes it. -/
def tcp_server.on_read_available (srv : tcp_server) (newFd clientFd : Int)
    (sinPort : Nat) (admission : Bool) : tcp_server × List ServerEvent :=
  match srv.m_socket.accept newFd clientFd sinPort with
  | (sock1, .error _) =>
    let (srv2, evs) := ({ srv with m_socket := sock1 } : tcp_server).stop
    (srv2, [ServerEvent.accept_attempt, acceptFailureReport] ++ evs)
  | (sock1, .ok accepted) =>
    let srv1 : tcp_server := { srv with m_socket := sock1 }
    let client : ModelClient := { socket := accepted, has_disconnection_handler := false }
    if srv.m_has_callback = false ∨ admission = true then
      ({ srv1 with m_clients :=
          srv1.m_clients ++ [{ client with has_disconnection_handler := true }] },
       [ServerEvent.accept_attempt, ServerEvent.clients_push])
    else
      (srv1, [ServerEvent.accept_attempt] ++ (client.disconnect).2)

/-- `tcp_server::on_client_disconnected`: return at once when the
server is not running; otherwise, under `m_clients_mtx`, find the
client in `m_clients` and erase it when present. -/
def tcp_server.on_client_disconnected (srv : tcp_server) (client : ModelClient) :
    tcp_server × List ServerEvent :=
  if srv.m_is_running = false then (srv, [])
  else if srv.m_clients.contains client then
    ({ srv with m_clients := srv.m_clients.erase client },
     [ServerEvent.lock_acquire, ServerEvent.clients_erase, ServerEvent.lock_release])
  else (srv, [ServerEvent.lock_acquire, ServerEvent.lock_release])

/-- Lock-discipline check over a trace: every mutation of the client
collection must happen at positive `m_clients_mtx` depth. -/
def mutationsUnderLock : List ServerEvent → Nat → Bool
  | [], _ => true
  | .lock_acquire :: rest, depth => mutationsUnderLock rest (depth + 1)
  | .lock_release :: rest, depth => mutationsUnderLock rest (depth - 1)
  | .clients_push :: rest, depth => decide (0 < depth) && mutationsUnderLock rest depth
  | .clients_erase :: rest, depth => decide (0 < depth) && mutationsUnderLock rest depth
  | .clients_clear :: rest, depth => decide (0 < depth) && mutationsUnderLock rest depth
  | _ :: rest, depth => mutationsUnderLock rest depth

/-- A concrete client wrapping an accepted socket. -/
def demoClient : ModelClient :=
  { socket := { m_fd := 7, m_host := "", m_port := 36895, m_type := .CLIENT },
    has_disconnection_handler := true }

/-- A concrete running server with no admission callback installed. -/
def demoServerNoCallback : tcp_server :=
  { m_is_running := true, m_socket := demoServerSocket,
    m_clients := [], m_has_callback := false }

/-- A concrete running server with an admission callback installed. -/
def demoServerWithCallback : tcp_server :=
  { m_is_running := true, m_socket := demoServerSocket,
    m_clients := [], m_has_callback := true }

/-- A concrete running server already tracking one client. -/
def demoServerWithClient : tcp_server :=
  { m_is_running := true, m_socket := demoServerSocket,
    m_clients := [demoClient], m_has_callback := true }

/-! ### Claim theorems: socket layer -/

/-- C7: `close()` is idempotent — after any close the descriptor is
unset and the role is Unknown, closing again is a no-op that performs
no second OS close, and a single close performs exactly one OS close
of the held descriptor (none when no descriptor is held). -/
theorem close_idempotent (s : tcp_socket) :
    (s.close).1.m_fd = -1 ∧ (s.close).1.m_type = .UNKNOWN ∧
    (s.close).1.close = ((s.close).1, []) ∧
    (s.close).2 = (if s.m_fd = -1 then ([] : List Int) else [s.m_fd]) := by
  obtain ⟨fd, host, port, ty⟩ := s
  by_cases h : fd = -1 <;> simp [tcp_socket.close, h]

/-- C2: `recv` distinguishes its three outcomes — OS recv returning -1
raises the I/O error, returning 0 raises the peer-closed condition
(warn level, its own message), and more than zero bytes returns the
buffer; the two error conditions are distinct values. -/
theorem recv_outcomes_distinguished (s : tcp_socket) (sz : Nat) (newFd : Int)
    (bytes : List Nat) (hfd : s.m_fd ≠ -1) (hty : s.m_type = .CLIENT) :
    (s.recv sz newFd .err).2 = .error recvIoError ∧
    (s.recv sz newFd (.ok [])).2 = .error peerClosedError ∧
    (bytes ≠ [] →
      (s.recv sz newFd (.ok bytes)).2 =
        .ok (bytes ++ List.replicate (sz - bytes.length) 0)) ∧
    peerClosedError ≠ recvIoError ∧
    peerClosedError.level = .warn ∧ recvIoError.level = .error := by
  have h1 := create_noop s newFd hfd
  have h2 := check_same s .CLIENT hty
  refine ⟨?_, ?_, fun hb => ?_, by decide, rfl, rfl⟩ <;>
    simp [tcp_socket.recv, h1, h2, *]

/-- C2 witness at a concrete Client socket and concrete OS results. -/
theorem recv_outcomes_distinguished_witness :
    (demoClientSocket.recv 5 9 .err).2 = .error recvIoError ∧
    (demoClientSocket.recv 5 9 (.ok [])).2 = .error peerClosedError ∧
    (([104, 105] : List Nat) ≠ [] →
      (demoClientSocket.recv 5 9 (.ok [104, 105])).2 =
        .ok ([104, 105] ++ List.replicate (5 - [104, 105].length) 0)) ∧
    peerClosedError ≠ recvIoError ∧
    peerClosedError.level = .warn ∧ recvIoError.level = .error :=
  recv_outcomes_distinguished demoClientSocket 5 9 [104, 105] (by decide) rfl

/-- C10: when the OS recv reads n bytes with 0 < n ≤ size_to_read, the
returned buffer has exactly size_to_read elements: the n received
bytes followed by zero fill. -/
theorem recv_zero_pads_buffer (s : tcp_socket) (sz : Nat) (newFd : Int)
    (bytes : List Nat) (hfd : s.m_fd ≠ -1) (hty : s.m_type = .CLIENT)
    (hpos : 0 < bytes.length) (hle : bytes.length ≤ sz) :
    ∃ data,
      (s.recv sz newFd (.ok bytes)).2 = .ok data ∧
      data.length = sz ∧
      data.take bytes.length = bytes ∧
      data.drop bytes.length = List.replicate (sz - bytes.length) 0 := by
  refine ⟨bytes ++ List.replicate (sz - bytes.length) 0, ?_, ?_, ?_, ?_⟩
  · have h1 := create_noop s newFd hfd
    have h2 := check_same s .CLIENT hty
    have hne : bytes.length ≠ 0 := Nat.pos_iff_ne_zero.mp hpos
    simp [tcp_socket.recv, h1, h2, hne]
  · simp only [List.length_append, List.length_replicate]
    omega
  · simp
  · simp

/-- C10 witness: reading 2 bytes with a 5-byte request yields a 5-byte
buffer, the 2 bytes then three zeros. -/
theorem recv_zero_pads_buffer_witness :
    ∃ data,
      (demoClientSocket.recv 5 9 (.ok [104, 105])).2 = .ok data ∧
      data.length = 5 ∧
      data.take ([104, 105] : List Nat).length = [104, 105] ∧
      data.drop ([104, 105] : List Nat).length =
        List.replicate (5 - ([104, 105] : List Nat).length) 0 :=
  recv_zero_pads_buffer demoClientSocket 5 9 [104, 105]
    (by decide) rfl (by decide) (by decide)

/-- C1 counterexample: the public `set_type` member assigns the role
unconditionally, so it moves an already-fixed Client role to Server
without any error — contradicting the claim that no public operation
can move the role between Client and Server. -/
theorem set_type_overrides_role :
    demoClientSocket.m_type = .CLIENT ∧
    (demoClientSocket.set_type .SERVER).m_type = .SERVER := by
  exact ⟨rfl, rfl⟩

/-- C1 amended: on a socket holding a descriptor, every role-checked
operation issued with the opposite recorded role fails with the
InvalidOperation error and leaves the socket (role included)
unchanged; every role-checked operation issued with the matching role
— recv, send, connect for Client; accept, bind, listen for Server —
never raises InvalidOperation and never flips the role; and `close`
resets the role to Unknown.  Only the unconditional `set_type` escape
hatch (and `close`) can change a fixed role. -/
theorem role_checked_ops_enforce_role (s : tcp_socket)
    (host : String) (port backlog sz sw sinPort : Nat) (data : List Nat)
    (newFd clientFd : Int) (rOk cOk bOk lOk : Bool) (osRecv : OsRecvResult)
    (osSend : Option Nat) (hfd : s.m_fd ≠ -1) :
    (s.m_type = .CLIENT →
      s.bind host port newFd rOk bOk = (s, .error invalidOperationError) ∧
      s.listen backlog newFd lOk = (s, .error invalidOperationError) ∧
      s.accept newFd clientFd sinPort = (s, .error invalidOperationError)) ∧
    (s.m_type = .SERVER →
      s.recv sz newFd osRecv = (s, .error invalidOperationError) ∧
      s.send data sw newFd osSend = (s, .error invalidOperationError) ∧
      s.connect host port newFd rOk cOk = (s, .error invalidOperationError)) ∧
    (s.m_type = .CLIENT →
      ((s.recv sz newFd osRecv).1.m_type = .CLIENT ∧
       (s.recv sz newFd osRecv).2 ≠ .error invalidOperationError) ∧
      ((s.send data sw newFd osSend).1.m_type = .CLIENT ∧
       (s.send data sw newFd osSend).2 ≠ .error invalidOperationError) ∧
      ((s.connect host port newFd rOk cOk).1.m_type = .CLIENT ∧
       (s.connect host port newFd rOk cOk).2 ≠ .error invalidOperationError)) ∧
    (s.m_type = .SERVER →
      ((s.accept newFd clientFd sinPort).1.m_type = .SERVER ∧
       (s.accept newFd clientFd sinPort).2 ≠ .error invalidOperationError) ∧
      ((s.bind host port newFd rOk bOk).1.m_type = .SERVER ∧
       (s.bind host port newFd rOk bOk).2 ≠ .error invalidOperationError) ∧
      ((s.listen backlog newFd lOk).1.m_type = .SERVER ∧
       (s.listen backlog newFd lOk).2 ≠ .error invalidOperationError)) ∧
    (s.close).1.m_type = .UNKNOWN := by
  have h1 := create_noop s newFd hfd
  refine ⟨fun hty => ?_, fun hty => ?_, fun hty => ?_, fun hty => ?_, ?_⟩
  · have hm := check_mismatch s .SERVER (by simp [hty]) (by simp [hty])
    exact ⟨by simp [tcp_socket.bind, h1, hm],
           by simp [tcp_socket.listen, h1, hm],
           by simp [tcp_socket.accept, h1, hm]⟩
  · have hm := check_mismatch s .CLIENT (by simp [hty]) (by simp [hty])
    exact ⟨by simp [tcp_socket.recv, h1, hm],
           by simp [tcp_socket.send, h1, hm],
           by simp [tcp_socket.connect, h1, hm]⟩
  · have h2 := check_same s .CLIENT hty
    refine ⟨?_, ?_, ?_⟩
    · rcases osRecv with _ | bytes
      · simp [tcp_socket.recv, h1, h2, hty, recvIoError, invalidOperationError]
      · by_cases hb : bytes.length = 0 <;>
          simp [tcp_socket.recv, h1, h2, hty, hb, peerClosedError,
                invalidOperationError]
    · rcases osSend with _ | wr <;>
        simp [tcp_socket.send, h1, h2, hty, invalidOperationError]
    · rcases rOk with _ | _ <;> rcases cOk with _ | _ <;>
        simp [tcp_socket.connect, h1, h2, hty, invalidOperationError]
  · have h2 := check_same s .SERVER hty
    refine ⟨?_, ?_, ?_⟩
    · by_cases hcf : clientFd = -1 <;>
        simp [tcp_socket.accept, h1, h2, hty, hcf, invalidOperationError]
    · rcases rOk with _ | _ <;> rcases bOk with _ | _ <;>
        simp [tcp_socket.bind, h1, h2, hty, invalidOperationError]
    · rcases lOk with _ | _ <;>
        simp [tcp_socket.listen, h1, h2, hty, invalidOperationError]
  · simp [tcp_socket.close]

/-- C1 amended witness at concrete sockets of each fixed role,
exercising a mismatched-role failure, matching-role operations for
both roles, and the close reset. -/
theorem role_checked_ops_enforce_role_witness :
    demoClientSocket.bind "h" 80 9 true true =
      (demoClientSocket, .error invalidOperationError) ∧
    demoServerSocket.recv 5 9 .err =
      (demoServerSocket, .error invalidOperationError) ∧
    (demoClientSocket.send [1] 1 9 (some 1)).2 ≠ .error invalidOperationError ∧
    (demoClientSocket.connect "h" 80 9 true true).1.m_type = .CLIENT ∧
    (demoServerSocket.bind "h" 80 9 true true).2 ≠ .error invalidOperationError ∧
    (demoServerSocket.listen 1024 9 true).1.m_type = .SERVER ∧
    (demoClientSocket.close).1.m_type = .UNKNOWN :=
  ⟨((role_checked_ops_enforce_role demoClientSocket "h" 80 1024 5 1 0 [1] 9 7
      true true true true .err (some 1) (by decide)).1 rfl).1,
   ((role_checked_ops_enforce_role demoServerSocket "h" 80 1024 5 1 0 [1] 9 7
      true true true true .err (some 1) (by decide)).2.1 rfl).1,
   (((role_checked_ops_enforce_role demoClientSocket "h" 80 1024 5 1 0 [1] 9 7
      true true true true .err (some 1) (by decide)).2.2.1 rfl).2.1).2,
   (((role_checked_ops_enforce_role demoClientSocket "h" 80 1024 5 1 0 [1] 9 7
      true true true true .err (some 1) (by decide)).2.2.1 rfl).2.2).1,
   (((role_checked_ops_enforce_role demoServerSocket "h" 80 1024 5 1 0 [1] 9 7
      true true true true .err (some 1) (by decide)).2.2.2.1 rfl).2.1).2,
   (((role_checked_ops_enforce_role demoServerSocket "h" 80 1024 5 1 0 [1] 9 7
      true true true true .err (some 1) (by decide)).2.2.2.1 rfl).2.2).1,
   (role_checked_ops_enforce_role demoClientSocket "h" 80 1024 5 1 0 [1] 9 7
      true true true true .err (some 1) (by decide)).2.2.2.2⟩

/-- C8: evaluating `accept` at a successful OS accept (new descriptor
7, peer sockaddr port field 36895) shows the returned socket is tagged
Client with the new descriptor, but its host is the empty string (the
source carries a TODO for the real peer address) and its port is the
raw `sin_port` value — the peer address is not preserved as the claim
states. -/
theorem accept_returns_client_with_empty_host :
    demoServerSocket.accept 9 7 36895 =
      (demoServerSocket,
       .ok { m_fd := 7, m_host := "", m_port := 36895, m_type := .CLIENT }) := by
  rfl

/-! ### Helper lemmas: server layer -/

theorem accept_ok (s : tcp_socket) (newFd clientFd : Int) (sinPort : Nat)
    (hfd : s.m_fd ≠ -1) (hty : s.m_type = .SERVER) (hcf : clientFd ≠ -1) :
    s.accept newFd clientFd sinPort =
      (s, .ok { m_fd := clientFd, m_host := "", m_port := sinPort,
                m_type := .CLIENT }) := by
  simp [tcp_socket.accept, create_noop s newFd hfd, check_same s .SERVER hty, hcf]

theorem accept_fail (s : tcp_socket) (newFd : Int) (sinPort : Nat)
    (hfd : s.m_fd ≠ -1) (hty : s.m_type = .SERVER) :
    s.accept newFd (-1) sinPort =
      (s, .error { level := .error, msg := "accept() failure" }) := by
  simp [tcp_socket.accept, create_noop s newFd hfd, check_same s .SERVER hty]

theorem stop_result_not_running (srv : tcp_server) :
    (srv.stop).1.m_is_running = false := by
  by_cases h : srv.m_is_running = false <;> simp [tcp_server.stop, h]

theorem stop_trace_shape (srv : tcp_server) :
    ∀ e ∈ (srv.stop).2, e = ServerEvent.untrack ∨ e = ServerEvent.lock_acquire ∨
      e = ServerEvent.lock_release ∨ e = ServerEvent.clients_clear ∨
      ∃ fd, e = ServerEvent.os_close fd := by
  intro e he
  by_cases h : srv.m_is_running = false
  · simp [tcp_server.stop, h] at he
  · rw [Bool.not_eq_false] at h
    simp [tcp_server.stop, h, ModelClient.disconnect, tcp_socket.close] at he
    rcases he with rfl | ⟨a, ha, rfl⟩ | rfl | ⟨c, hc, a1, ha1, rfl⟩ | rfl | rfl
    · exact Or.inl rfl
    · exact Or.inr (Or.inr (Or.inr (Or.inr ⟨a, rfl⟩)))
    · exact Or.inr (Or.inl rfl)
    · exact Or.inr (Or.inr (Or.inr (Or.inr ⟨a1, rfl⟩)))
    · exact Or.inr (Or.inr (Or.inr (Or.inl rfl)))
    · exact Or.inr (Or.inr (Or.inl rfl))

theorem stop_noop (srv : tcp_server) (h : srv.m_is_running = false) :
    srv.stop = (srv, []) := by
  simp [tcp_server.stop, h]

theorem bind_os_failure (s : tcp_socket) (host : String) (port : Nat)
    (newFd : Int) (resolveOk bindOk : Bool)
    (hf : resolveOk = false ∨ bindOk = false) (u : Unit) :
    (s.bind host port newFd resolveOk bindOk).2 ≠ Except.ok u := by
  unfold tcp_socket.bind
  rcases hc : s.create_socket_if_necessary newFd with ⟨s1, o⟩
  rcases o with _ | e2
  · rcases hk : s1.check_or_set_type .SERVER with ⟨s2, o2⟩
    rcases o2 with _ | e3
    · rcases hf with hf | hf <;> rcases hr : resolveOk with _ | _ <;> simp_all
    · simp_all
  · simp_all

theorem stop_run_state (srv : tcp_server) (h : srv.m_is_running = true) :
    (srv.stop).1.m_clients = [] ∧ (srv.stop).1.m_socket.m_fd = -1 ∧
    (srv.stop).1.m_socket.m_type = .UNKNOWN ∧
    ServerEvent.untrack ∈ (srv.stop).2 := by
  refine ⟨?_, ?_, ?_, ?_⟩ <;> simp [tcp_server.stop, h, tcp_socket.close]

theorem stop_closes_client (srv : tcp_server) (c : ModelClient)
    (h : srv.m_is_running = true) (hc : c ∈ srv.m_clients)
    (hcfd : c.socket.m_fd ≠ -1) :
    ServerEvent.os_close c.socket.m_fd ∈ (srv.stop).2 := by
  have hmem : ServerEvent.os_close c.socket.m_fd ∈
      ((srv.m_clients.map fun c => (c.disconnect).2).flatten) := by
    refine List.mem_flatten.mpr ⟨(c.disconnect).2, List.mem_map_of_mem _ hc, ?_⟩
    simp [ModelClient.disconnect, tcp_socket.close, hcfd]
  simp only [tcp_server.stop, h]
  simp [hmem]

/-! ### Claim theorems: server layer -/

/-- C3 counterexample: with no admission callback installed, a
successful accept is NOT dropped — the connection is pushed onto the
client collection with its disconnection handler wired (absence of the
callback means default accept in the code and the spec, contrary to
the claim). -/
theorem absent_callback_still_accepts :
    demoServerNoCallback.m_has_callback = false ∧
    (demoServerNoCallback.on_read_available 9 7 36895 false).1.m_clients =
      [{ socket := { m_fd := 7, m_host := "", m_port := 36895, m_type := .CLIENT },
         has_disconnection_handler := true }] :=
  ⟨rfl, rfl⟩

/-- C3 amended: on a successful accept, when the admission callback is
installed and returns false the connection is dropped — its descriptor
is closed, it is never pushed onto the client collection and no
disconnection handler is wired; when the callback returns true or no
callback is installed, the connection is pushed onto the collection
with its disconnection handler wired. -/
theorem admission_controls_registration (srv : tcp_server)
    (newFd clientFd : Int) (sinPort : Nat) (admission : Bool)
    (hfd : srv.m_socket.m_fd ≠ -1) (hty : srv.m_socket.m_type = .SERVER)
    (hcf : clientFd ≠ -1) :
    (srv.m_has_callback = true → admission = false →
      (srv.on_read_available newFd clientFd sinPort admission).1.m_clients =
        srv.m_clients ∧
      (srv.on_read_available newFd clientFd sinPort admission).2 =
        [ServerEvent.accept_attempt, ServerEvent.os_close clientFd]) ∧
    (srv.m_has_callback = false ∨ admission = true →
      (srv.on_read_available newFd clientFd sinPort admission).1.m_clients =
        srv.m_clients ++
          [{ socket := { m_fd := clientFd, m_host := "", m_port := sinPort,
                         m_type := .CLIENT },
             has_disconnection_handler := true }] ∧
      (srv.on_read_available newFd clientFd sinPort admission).2 =
        [ServerEvent.accept_attempt, ServerEvent.clients_push]) := by
  have hacc := accept_ok srv.m_socket newFd clientFd sinPort hfd hty hcf
  constructor
  · intro hcb hadm
    have hcond : ¬(srv.m_has_callback = false ∨ admission = true) := by
      simp [hcb, hadm]
    constructor <;>
      simp [tcp_server.on_read_available, hacc, hcond,
            ModelClient.disconnect, tcp_socket.close, hcf]
  · intro hcond
    constructor <;> simp [tcp_server.on_read_available, hacc, hcond]

/-- C3 amended witness: a server with a callback dismissing the
connection versus the same server admitting it. -/
theorem admission_controls_registration_witness :
    ((demoServerWithCallback.on_read_available 9 7 36895 false).1.m_clients =
        demoServerWithCallback.m_clients ∧
     (demoServerWithCallback.on_read_available 9 7 36895 false).2 =
        [ServerEvent.accept_attempt, ServerEvent.os_close 7]) ∧
    ((demoServerWithCallback.on_read_available 9 7 36895 true).1.m_clients =
        demoServerWithCallback.m_clients ++
          [{ socket := { m_fd := 7, m_host := "", m_port := 36895,
                         m_type := .CLIENT },
             has_disconnection_handler := true }] ∧
     (demoServerWithCallback.on_read_available 9 7 36895 true).2 =
        [ServerEvent.accept_attempt, ServerEvent.clients_push]) :=
  ⟨(admission_controls_registration demoServerWithCallback 9 7 36895 false
      (by decide) rfl (by decide)).1 rfl rfl,
   (admission_controls_registration demoServerWithCallback 9 7 36895 true
      (by decide) rfl (by decide)).2 (Or.inr rfl)⟩

/-- C4: `stop()` is idempotent — a second stop (for instance from the
destructor) is a no-op; a stop on a non-running server changes
nothing; a stop on a running server clears the running flag, untracks
and closes the listening socket, disconnects (closes) every tracked
client and empties the collection. -/
theorem stop_idempotent (srv : tcp_server) :
    tcp_server.stop (tcp_server.stop srv).1 = ((tcp_server.stop srv).1, []) ∧
    (srv.m_is_running = false → srv.stop = (srv, [])) ∧
    (srv.m_is_running = true →
      (srv.stop).1.m_is_running = false ∧
      (srv.stop).1.m_clients = [] ∧
      (srv.stop).1.m_socket.m_fd = -1 ∧
      (srv.stop).1.m_socket.m_type = .UNKNOWN ∧
      ServerEvent.untrack ∈ (srv.stop).2 ∧
      ∀ c ∈ srv.m_clients, c.socket.m_fd ≠ -1 →
        ServerEvent.os_close c.socket.m_fd ∈ (srv.stop).2) := by
  refine ⟨stop_noop _ (stop_result_not_running srv), stop_noop srv, fun h => ?_⟩
  obtain ⟨h1, h2, h3, h4⟩ := stop_run_state srv h
  exact ⟨stop_result_not_running srv, h1, h2, h3, h4,
    fun c hc hcfd => stop_closes_client srv c h hc hcfd⟩

/-- C4 witness at a running server tracking one client. -/
theorem stop_idempotent_witness :
    tcp_server.stop (tcp_server.stop demoServerWithClient).1 =
      ((tcp_server.stop demoServerWithClient).1, []) ∧
    (demoServerWithClient.stop).1.m_is_running = false ∧
    (demoServerWithClient.stop).1.m_clients = [] ∧
    (demoServerWithClient.stop).1.m_socket.m_fd = -1 ∧
    ServerEvent.os_close 7 ∈ (demoServerWithClient.stop).2 :=
  ⟨(stop_idempotent demoServerWithClient).1,
   ((stop_idempotent demoServerWithClient).2.2 rfl).1,
   ((stop_idempotent demoServerWithClient).2.2 rfl).2.1,
   ((stop_idempotent demoServerWithClient).2.2 rfl).2.2.1,
   ((stop_idempotent demoServerWithClient).2.2 rfl).2.2.2.2.2 demoClient
     (by simp [demoServerWithClient]) (by decide)⟩

/-- C5: `start` on a running server fails with the AlreadyRunning
error and changes nothing; when the OS resolution or bind fails, start
returns an error; and whenever start returns an error the running
flag, admission callback and client collection are untouched and no
reactor tracking or callback registration happened. -/
theorem start_failure_preserves_state (srv : tcp_server) (host : String)
    (port : Nat) (newFd : Int) (resolveOk bindOk listenOk cbPresent : Bool) :
    (srv.m_is_running = true →
      srv.start host port newFd resolveOk bindOk listenOk cbPresent =
        (srv, [], some alreadyRunningError)) ∧
    (srv.m_is_running = false → (resolveOk = false ∨ bindOk = false) →
      ((srv.start host port newFd resolveOk bindOk listenOk cbPresent).2.2).isSome
        = true) ∧
    (∀ e, (srv.start host port newFd resolveOk bindOk listenOk cbPresent).2.2 =
        some e →
      (srv.start host port newFd resolveOk bindOk listenOk cbPresent).1.m_is_running
        = srv.m_is_running ∧
      (srv.start host port newFd resolveOk bindOk listenOk cbPresent).1.m_has_callback
        = srv.m_has_callback ∧
      (srv.start host port newFd resolveOk bindOk listenOk cbPresent).1.m_clients
        = srv.m_clients ∧
      (srv.start host port newFd resolveOk bindOk listenOk cbPresent).2.1 = []) := by
  refine ⟨fun h => by simp [tcp_server.start, h], fun h hfail => ?_, fun e he => ?_⟩
  · simp only [tcp_server.start, h, Bool.false_eq_true, if_false]
    rcases hb : srv.m_socket.bind host port newFd resolveOk bindOk with ⟨sock1, res⟩
    rcases res with e | u
    · simp
    · exact ((bind_os_failure srv.m_socket host port newFd resolveOk bindOk
        hfail u) (by rw [hb])).elim
  · by_cases h : srv.m_is_running = true
    · simp [tcp_server.start, h] at he ⊢
    · rw [Bool.not_eq_true] at h
      simp only [tcp_server.start, h, Bool.false_eq_true, if_false] at he ⊢
      rcases hb : srv.m_socket.bind host port newFd resolveOk bindOk with ⟨sock1, res⟩
      rcases res with e1 | u
      · simp [hb]
      · rcases hl : sock1.listen connectionQueueSize newFd listenOk with ⟨sock2, res2⟩
        rcases res2 with e2 | u2
        · simp [hb, hl]
        · simp [hb, hl] at he

/-- C5 witness: a concrete running server, and a concrete bind failure
on a non-running server. -/
theorem start_failure_preserves_state_witness :
    demoServerNoCallback.start "127.0.0.1" 3000 9 true true true true =
      (demoServerNoCallback, [], some alreadyRunningError) ∧
    ((({ m_is_running := false, m_socket := demoServerSocket, m_clients := [],
         m_has_callback := false } : tcp_server).start
        "127.0.0.1" 3000 9 true false true true).2.2).isSome = true :=
  ⟨(start_failure_preserves_state demoServerNoCallback "127.0.0.1" 3000 9
      true true true true).1 rfl,
   (start_failure_preserves_state
      { m_is_running := false, m_socket := demoServerSocket, m_clients := [],
        m_has_callback := false } "127.0.0.1" 3000 9 true false true true).2.1
      rfl (Or.inr rfl)⟩

/-- C6: when the accept raised on a readiness event of a running
server (OS accept returning -1), the failure is reported exactly once
and the server stops itself — running flag cleared, listening socket
closed, client collection emptied — with exactly one accept attempt
(no retry) and no error propagated (the handler is total). -/
theorem accept_failure_stops_server (srv : tcp_server) (newFd : Int)
    (sinPort : Nat) (admission : Bool) (hrun : srv.m_is_running = true)
    (hfd : srv.m_socket.m_fd ≠ -1) (hty : srv.m_socket.m_type = .SERVER) :
    (srv.on_read_available newFd (-1) sinPort admission).1.m_is_running = false ∧
    (srv.on_read_available newFd (-1) sinPort admission).1.m_clients = [] ∧
    (srv.on_read_available newFd (-1) sinPort admission).1.m_socket.m_fd = -1 ∧
    (srv.on_read_available newFd (-1) sinPort admission).2.count
      acceptFailureReport = 1 ∧
    (srv.on_read_available newFd (-1) sinPort admission).2.count
      ServerEvent.accept_attempt = 1 := by
  have hacc := accept_fail srv.m_socket newFd sinPort hfd hty
  have hra : srv.on_read_available newFd (-1) sinPort admission =
      ((srv.stop).1,
       [ServerEvent.accept_attempt, acceptFailureReport] ++ (srv.stop).2) := by
    simp [tcp_server.on_read_available, hacc]
  have hstop := stop_run_state srv hrun
  have hnolog : ∀ x, x = acceptFailureReport ∨ x = ServerEvent.accept_attempt →
      x ∉ (srv.stop).2 := by
    intro x hx hmem
    rcases stop_trace_shape srv x hmem with h | h | h | h | ⟨fd, h⟩ <;>
      rcases hx with rfl | rfl <;> simp [acceptFailureReport] at h
  rw [hra]
  refine ⟨stop_result_not_running srv, hstop.1, hstop.2.1, ?_, ?_⟩
  · rw [List.count_append]
    rw [List.count_eq_zero.mpr (hnolog _ (Or.inl rfl))]
    simp [acceptFailureReport]
  · rw [List.count_append]
    rw [List.count_eq_zero.mpr (hnolog _ (Or.inr rfl))]
    simp [acceptFailureReport]

/-- C6 witness at a concrete running server with one tracked client. -/
theorem accept_failure_stops_server_witness :
    (demoServerWithClient.on_read_available 9 (-1) 0 true).1.m_is_running = false ∧
    (demoServerWithClient.on_read_available 9 (-1) 0 true).1.m_clients = [] ∧
    (demoServerWithClient.on_read_available 9 (-1) 0 true).2.count
      acceptFailureReport = 1 :=
  ⟨(accept_failure_stops_server demoServerWithClient 9 0 true rfl (by decide) rfl).1,
   (accept_failure_stops_server demoServerWithClient 9 0 true rfl (by decide) rfl).2.1,
   (accept_failure_stops_server demoServerWithClient 9 0 true rfl (by decide) rfl).2.2.2.1⟩

/-- C9: the erase path (`on_client_disconnected`) and the bulk clear
in `stop()` mutate the client collection at positive mutex depth, but
the insertion on the accept path (`on_read_available`) pushes onto the
collection with the mutex not held — evaluated on concrete runs of all
three paths. -/
theorem accept_path_mutation_unlocked :
    mutationsUnderLock
      (demoServerWithCallback.on_read_available 9 7 36895 true).2 0 = false ∧
    mutationsUnderLock (demoServerWithClient.stop).2 0 = true ∧
    mutationsUnderLock
      (demoServerWithClient.on_client_disconnected demoClient).2 0 = true := by
  refine ⟨by decide, by decide, by decide⟩

end Tacopie
